import Mathlib

/-!
Verification of the deno-kv storage engine model against its sources.

The development shallowly embeds the TypeScript/Rust-ponyfill sources:

* the key codec and `KeyPart` ordering (`codec.ts` / `lib.rs` ponyfill,
  with the `rs-ponyfill` runtime stubs it actually executes against);
* the atomic write engine (`atomic_write` as quoted from `sqlite.rs` in the
  repository's documentation, and the TypeScript `kvAtomicWrite` /
  `AtomicOperation.commit` path);
* the `KvListIterator` state machine and its constructor;
* the `Kv.get` / `Kv.getMany` point-read path.

Machine integers are modelled as `Nat` with explicit `% 2 ^ 64` where the
source wraps; IEEE doubles are modelled by their 64-bit bit patterns;
fallible operations return `Except`.
-/

namespace DenoKv

/-! ## Key parts and their semantic order (rs-ponyfill `lib.rs`, `impl Ord for KeyPart`)

A `KeyPart` is the tagged union over Bytes, String, Int, Float, False, True.
A string part is carried as the list of its UTF-8 bytes, since the source
compares strings with `s1.as_bytes().cmp(s2.as_bytes())`.  A float part is
carried as the 64-bit bit pattern of the IEEE-754 double. -/

inductive KeyPart where
  | Bytes (b : List Nat)
  | String (s : List Nat)
  | Int (i : Int)
  | Float (bits : Nat)
  | False
  | True
deriving DecidableEq, Repr

/-- A `Key` is an ordered sequence of `KeyPart`s (`class Key extends Vec<KeyPart>`). -/
abbrev Key := List KeyPart

/-- `KeyPart::tag_ordering` from the source: the fixed tag precedence
Bytes < String < Int < Float < False < True. -/
def tag_ordering : KeyPart → Nat
  | .Bytes _ => 0
  | .String _ => 1
  | .Int _ => 2
  | .Float _ => 3
  | .False => 4
  | .True => 5

/-- Lexicographic comparison of lists by an element comparison, as Rust
compares `Vec`s and slices. -/
def cmpList (cmp : α → α → Ordering) : List α → List α → Ordering
  | [], [] => .eq
  | [], _ :: _ => .lt
  | _ :: _, [] => .gt
  | a :: as, b :: bs =>
    match cmp a b with
    | .eq => cmpList cmp as bs
    | o => o

/-! ### IEEE-754 double bit-pattern helpers

The repository's `rs-ponyfill` module implements `f64` as a wrapper around a
JavaScript `Number`; we model a double by its 64-bit bit pattern
(sign 1 bit, exponent 11 bits, mantissa 52 bits). -/

/-- A bit pattern denotes NaN iff its exponent field is all ones and its
mantissa field is non-zero (this is `isNaN(+this)` of `f64.is_nan`). -/
def f64_is_nan (bits : Nat) : Bool :=
  (bits / 2 ^ 52) % 2 ^ 11 = 2 ^ 11 - 1 && bits % 2 ^ 52 ≠ 0

/-- `f64.is_sign_negative` from `rs-ponyfill`: the source computes
`+this < 0` on the JavaScript Number.  The numeric value of a double is
strictly negative iff its sign bit is set, it is not a NaN, and it is not
negative zero (bit pattern `2 ^ 63` exactly).  Note this is NOT a check of
the sign bit: every NaN answers `false` here, as does negative zero. -/
def f64_is_sign_negative (bits : Nat) : Bool :=
  2 ^ 63 ≤ bits && !f64_is_nan bits && bits ≠ 2 ^ 63

/-- `CANONICAL_NAN_POS` from the codec source. -/
def CANONICAL_NAN_POS : Nat := 0x7ff8000000000000

/-- `CANONICAL_NAN_NEG` from the codec source. -/
def CANONICAL_NAN_NEG : Nat := 0xfff8000000000000

/-- `canonicalize_f64` from the codec source, on bit patterns:

```
if (n.is_nan()) {
  if (n.is_sign_negative()) return f64.from_bits(CANONICAL_NAN_NEG);
  else return f64.from_bits(CANONICAL_NAN_POS);
} else return n;
```

with `is_nan` / `is_sign_negative` the `rs-ponyfill` implementations above. -/
def canonicalize_f64 (bits : Nat) : Nat :=
  if f64_is_nan bits then
    if f64_is_sign_negative bits then CANONICAL_NAN_NEG else CANONICAL_NAN_POS
  else bits

/-- Reading a 64-bit pattern as a two's-complement `i64`. -/
def i64_of_bits (bits : Nat) : Int :=
  if bits < 2 ^ 63 then (bits : Int) else (bits : Int) - 2 ^ 64

/-- The monotone key of Rust's `f64::total_cmp`: interpret the bits as `i64`
and xor the low 63 bits when the sign bit is set
(`left ^= (((left >> 63) as u64) >> 1) as i64`). -/
def total_cmp_key (bits : Nat) : Int :=
  if i64_of_bits bits < 0 then i64_of_bits (Nat.xor bits (2 ^ 63 - 1))
  else i64_of_bits bits

/-- Rust `f64::total_cmp` on bit patterns. -/
def total_cmp (b1 b2 : Nat) : Ordering :=
  compare (total_cmp_key b1) (total_cmp_key b2)

/-- `impl Ord for KeyPart` from the source: same-tag parts compare by value
(bytes and UTF-8 strings bytewise, integers numerically, floats by
`total_cmp` after `canonicalize_f64`), different tags by `tag_ordering`. -/
def keyPart_cmp : KeyPart → KeyPart → Ordering
  | .Bytes b1, .Bytes b2 => cmpList compare b1 b2
  | .String s1, .String s2 => cmpList compare s1 s2
  | .Int i1, .Int i2 => compare i1 i2
  | .Float f1, .Float f2 => total_cmp (canonicalize_f64 f1) (canonicalize_f64 f2)
  | a, b => compare (tag_ordering a) (tag_ordering b)

/-- Keys (Rust `Vec<KeyPart>`) compare lexicographically by `keyPart_cmp`. -/
def key_cmp (k1 k2 : Key) : Ordering :=
  cmpList keyPart_cmp k1 k2

/-- Semantic strict order on keys. -/
def key_lt (k1 k2 : Key) : Bool :=
  key_cmp k1 k2 = .lt

/-- Unsigned bytewise lexicographic strict order on encoded byte strings
(decode-free binary comparison). -/
def bytes_lt (b1 b2 : List Nat) : Bool :=
  cmpList compare b1 b2 = .lt

/-! ## The key encoder as the repository executes it

`encode_key` in the codec source loops over the parts and, per part, calls
`match(part, [...arms...])` where `match` is the `rs-ponyfill` export
`export const match: any = () => {};` — a stub that ignores its arguments
and invokes none of the arm callbacks.  (The arms that would push bytes also
depend on `escape_raw_bytes_into`, which resets `output.length` to 0, and on
`bigint.encode_into`, whose body is empty.)  Consequently no iteration of
the loop appends anything to `output`, and `encode_key` returns `Ok` of the
empty byte vector for every key. -/
def encode_key (key : Key) : List Nat :=
  key.foldl (fun output _part => output) []

/-! ## Claim theorems about the key codec -/

/-- C5: the claim says `canonicalize_f64` maps every NaN bit pattern with the
sign bit set to `0xfff8000000000000`.  Evaluating the code at the failing
input `0xfff8000000000000` (a sign-bit-set NaN): the result is the positive
canonical NaN `0x7ff8000000000000`, not the negative one, because
`f64.is_sign_negative` computes `+this < 0`, which is false for every NaN —
the `CANONICAL_NAN_NEG` branch is dead code.  Non-NaN patterns (here the
bits of 1.5 and of -2.0) are left unchanged, as the claim states. -/
theorem C5_negative_nan_not_canonicalized :
    canonicalize_f64 0xfff8000000000000 = CANONICAL_NAN_POS ∧
    canonicalize_f64 0xfff8000000000000 ≠ CANONICAL_NAN_NEG ∧
    canonicalize_f64 0x3ff8000000000000 = 0x3ff8000000000000 ∧
    canonicalize_f64 0xc000000000000000 = 0xc000000000000000 := by
  refine ⟨by decide, by decide, by decide, by decide⟩

/-- C2: the claim says `encode(k1) < encode(k2)` bytewise iff `k1 < k2`
semantically.  At the failing input `k1 = []`, `k2 = [String "a"]`
(UTF-8 bytes `[97]`): `k1 < k2` under the KeyPart order, yet `encode_key`
returns the empty byte string for both keys, so the bytewise comparison does
not hold — the equivalence fails. -/
theorem C2_order_fidelity_broken :
    key_lt [] [KeyPart.String [97]] = true ∧
    encode_key [] = encode_key [KeyPart.String [97]] ∧
    bytes_lt (encode_key []) (encode_key [KeyPart.String [97]]) = false := by
  refine ⟨by decide, rfl, by decide⟩

/-- C3: the claim says `decode(encode(k)) == k` for every key.  The encoder
collides the two distinct keys `[]` and `[String "a"]` (both encode to the
empty byte string), so no decoding function whatsoever can invert it — the
round-trip property is unsatisfiable for this encoder. -/
theorem C3_roundtrip_impossible :
    encode_key [] = encode_key [KeyPart.String [97]] ∧
    ([] : Key) ≠ [KeyPart.String [97]] ∧
    ¬ ∃ decode : List Nat → Key, ∀ k : Key, decode (encode_key k) = k := by
  refine ⟨rfl, by decide, ?_⟩
  rintro ⟨decode, hd⟩
  have h1 := hd []
  have h2 := hd [KeyPart.String [97]]
  rw [show encode_key [] = encode_key [KeyPart.String [97]] from rfl] at h1
  rw [h2] at h1
  exact absurd h1 (by decide)

/-! ## The atomic write engine

The repository documents (and quotes verbatim) the `sqlite.rs` function
`atomic_write` it sets out to mirror; the structures `AtomicWrite`,
`KvCheck`, `KvMutation`, `MutationKind`, `Value`, `CommitResult` are
declared in the `rs-ponyfill` `lib.rs`.  Keys at this layer are encoded
byte strings. -/

/-- An encoded byte-string key of the versioned table. -/
abbrev ByteKey := List Nat

/-- `Value` from `lib.rs`: a V8-serialized payload, raw bytes, or a 64-bit
unsigned integer (here a `Nat`, wrapped mod `2 ^ 64` wherever the source
wraps). -/
inductive Value where
  | V8 (b : List Nat)
  | Bytes (b : List Nat)
  | U64 (n : Nat)
deriving DecidableEq, Repr

/-- `MutationKind` from `lib.rs`. -/
inductive MutationKind where
  | Set (v : Value)
  | Delete
  | Sum (v : Value)
  | Min (v : Value)
  | Max (v : Value)
deriving DecidableEq, Repr

/-- `KvCheck` from `lib.rs`: a key and the expected versionstamp
(`none` expects the key to be absent). -/
structure KvCheck where
  key : ByteKey
  versionstamp : Option (List Nat)
deriving DecidableEq, Repr

/-- `KvMutation` from `lib.rs`. -/
structure KvMutation where
  key : ByteKey
  kind : MutationKind
deriving DecidableEq, Repr

/-- `Enqueue` from `lib.rs` (carried by `AtomicWrite`; `atomic_write` leaves
enqueues unimplemented — `// TODO(@losfair): enqueues`). -/
structure Enqueue where
  payload : List Nat
  deadline_ms : Nat
  keys_if_undelivered : List ByteKey
  backoff_schedule : Option (List Nat)
deriving DecidableEq, Repr

/-- `AtomicWrite` from `lib.rs`. -/
structure AtomicWrite where
  checks : List KvCheck
  mutations : List KvMutation
  enqueues : List Enqueue
deriving DecidableEq, Repr

/-- `CommitResult` from `lib.rs`: the new versionstamp of the committed data. -/
structure CommitResult where
  versionstamp : List Nat
deriving DecidableEq, Repr

/-- A row of the `kv` table: `(v, v_encoding, version)`.  Modelled from the
spec: `encode_value` (the §6 value-codec collaborator) is not in the
repository, so the row stores the `Value` itself — an injective image of the
`(value-bytes, encoding-tag)` pair the SQL statements store. -/
structure KvRow where
  value : Value
  version : Nat
deriving DecidableEq, Repr

/-- The versioned table: the single global `data_version` counter and the
`kv` table as an association list keyed by encoded byte keys. -/
structure DbState where
  version : Nat
  kv : List (ByteKey × KvRow)
deriving DecidableEq, Repr

/-- `STATEMENT_KV_POINT_GET_*`: the row stored under a key, if any. -/
def lookupRow : List (ByteKey × KvRow) → ByteKey → Option KvRow
  | [], _ => none
  | (k', r) :: rest, k => if k' = k then some r else lookupRow rest k

/-- `STATEMENT_KV_POINT_SET`: insert, or on key conflict update in place. -/
def pointSet : List (ByteKey × KvRow) → ByteKey → Value → Nat → List (ByteKey × KvRow)
  | [], k, v, ver => [(k, ⟨v, ver⟩)]
  | (k', r) :: rest, k, v, ver =>
    if k' = k then (k, ⟨v, ver⟩) :: rest else (k', r) :: pointSet rest k v ver

/-- `STATEMENT_KV_POINT_DELETE`: remove the row under the key, a no-op when
absent. -/
def pointDelete : List (ByteKey × KvRow) → ByteKey → List (ByteKey × KvRow)
  | [], _ => []
  | (k', r) :: rest, k =>
    if k' = k then rest else (k', r) :: pointDelete rest k

/-- Modelled from the spec: `version_to_versionstamp` is not in the
repository (only its call sites in the quoted `atomic_write` are).  Per §6 a
versionstamp is a fixed-width (10-byte, `[u8; 10]` in `lib.rs`) identifier
derived deterministically from the monotonic counter; we model it as the
counter's 10-byte big-endian encoding. -/
def version_to_versionstamp (version : Nat) : List Nat :=
  (List.range 10).map (fun i => version / 2 ^ (8 * (9 - i)) % 2 ^ 8)

/-- The versionstamp the check loop observes for a key: the stored row's
version through `version_to_versionstamp`, or `none` for an absent key. -/
def currentVersionstamp (db : DbState) (k : ByteKey) : Option (List Nat) :=
  (lookupRow db.kv k).map (fun r => version_to_versionstamp r.version)

/-- The check loop of `atomic_write`: it returns `Ok(None)` at the first
check whose observed versionstamp differs from the expected one; reads have
no side effect, so the loop passes iff every check matches. -/
def checksPass (db : DbState) (checks : List KvCheck) : Bool :=
  checks.all (fun c => currentVersionstamp db c.key = c.versionstamp)

/-- Errors `atomic_write` surfaces as `Err` (distinct from a failed check). -/
inductive AWError where
  | typeMismatch
deriving DecidableEq, Repr

/-- `u64::wrapping_add` from the `Sum` arm of `atomic_write`. -/
def wrapping_add (a b : Nat) : Nat :=
  (a + b) % 2 ^ 64

/-- Modelled from the spec: `mutate_le64`'s body is not in the repository
(only its call sites in the quoted `atomic_write` are).  Per §4.2 and the
`MutationKind` documentation in `lib.rs`: the operand must be a `U64` value;
the existing stored value, if any, must be a `U64` value or the numeric
mutation is a TypeMismatch contract violation aborting the transaction; if
the key is absent the operand becomes the new value; otherwise the combiner
is applied to (existing, operand); the result is written back under the new
version. -/
def mutate_le64 (kv : List (ByteKey × KvRow)) (key : ByteKey) (operand : Value)
    (version : Nat) (mutate : Nat → Nat → Nat) :
    Except AWError (List (ByteKey × KvRow)) :=
  match operand with
  | .U64 n =>
    match lookupRow kv key with
    | none => .ok (pointSet kv key (.U64 n) version)
    | some r =>
      match r.value with
      | .U64 m => .ok (pointSet kv key (.U64 (mutate m n)) version)
      | _ => .error .typeMismatch
  | _ => .error .typeMismatch

/-- The mutation loop body of `atomic_write`: `Set` writes the value under
the new version, `Delete` removes the row (no-op when absent), `Sum`, `Min`
and `Max` go through `mutate_le64` with `wrapping_add`, `u64::min` and
`u64::max`. -/
def applyMutation (kv : List (ByteKey × KvRow)) (version : Nat) (m : KvMutation) :
    Except AWError (List (ByteKey × KvRow)) :=
  match m.kind with
  | .Set v => .ok (pointSet kv m.key v version)
  | .Delete => .ok (pointDelete kv m.key)
  | .Sum operand => mutate_le64 kv m.key operand version wrapping_add
  | .Min operand => mutate_le64 kv m.key operand version Nat.min
  | .Max operand => mutate_le64 kv m.key operand version Nat.max

/-- The mutation loop of `atomic_write`, in the order supplied. -/
def applyMutations (kv : List (ByteKey × KvRow)) (version : Nat) :
    List KvMutation → Except AWError (List (ByteKey × KvRow))
  | [] => .ok kv
  | m :: rest => do
    let kv' ← applyMutation kv version m
    applyMutations kv' version rest

/-- `atomic_write` from `sqlite.rs` as quoted in the repository:
open a transaction; run the checks (a failed check returns `Ok(None)`, the
dropped transaction rolls back, so the caller's state is unchanged);
increment `data_version` once (`version = version + 1 ... returning
version`); apply the mutations in order under that one new version; commit;
return `Ok(Some(CommitResult { versionstamp }))`.  An error (TypeMismatch)
drops the transaction, so no state change escapes. -/
def atomic_write (db : DbState) (w : AtomicWrite) :
    Except AWError (Option CommitResult × DbState) :=
  if checksPass db w.checks then
    let version := db.version + 1
    match applyMutations db.kv version w.mutations with
    | .error e => .error e
    | .ok kv' => .ok (some ⟨version_to_versionstamp version⟩, ⟨version, kv'⟩)
  else
    .ok (none, db)

/-! ## The TypeScript commit path

`src/internal/kvAtomicWrite.ts` is the function `AtomicOperation.commit`
actually calls. -/

/-- `KvKeyPart` at the TypeScript surface: `Uint8Array | string | number |
bigint | boolean` (a number carried by its 64-bit double bit pattern). -/
inductive KvKeyPartJs where
  | bytes (b : List Nat)
  | str (s : String)
  | num (bits : Nat)
  | bigint (i : Int)
  | bool (b : Bool)
deriving DecidableEq, Repr

/-- `KvKey` at the TypeScript surface: a sequence of `KvKeyPart`s. -/
abbrev KvKeyJs := List KvKeyPartJs

/-- `AtomicCheck` from the TypeScript sources: key plus expected
versionstamp string or null. -/
structure AtomicCheckJs where
  key : KvKeyJs
  versionstamp : Option String
deriving DecidableEq, Repr

/-- `RawValue` from `src/internal/RawValue.ts`. -/
inductive RawValue where
  | v8 (b : List Nat)
  | bytes (b : List Nat)
  | u64 (n : Nat)
deriving DecidableEq, Repr

/-- A queued mutation triple `[KvKey, string, RawValue | null]` as
`AtomicOperation` stores it. -/
abbrev MutationTriple := KvKeyJs × String × Option RawValue

/-- `kvAtomicWrite` from `src/internal/kvAtomicWrite.ts`: its entire body is
`return null;` — it ignores the database handle, the checks and the
mutations and resolves with `null` unconditionally. -/
def kvAtomicWrite (_checks : Option (List AtomicCheckJs))
    (_mutations : Option (List MutationTriple)) : Option String :=
  none

/-- The value `AtomicOperation.commit` resolves with: `KvCommitResult`
(`ok: true` with a versionstamp) or `KvCommitError` (`ok: false`). -/
inductive CommitOutcome where
  | success (versionstamp : String)
  | failure
deriving DecidableEq, Repr

/-- `AtomicOperation.commit`: await `kvAtomicWrite(db, checks, mutations)`;
a non-null versionstamp becomes `{ ok: true, versionstamp }`, null becomes
`{ ok: false }`.  Nothing in this path throws. -/
def commitJs (checks : Option (List AtomicCheckJs))
    (mutations : Option (List MutationTriple)) : CommitOutcome :=
  match kvAtomicWrite checks mutations with
  | some versionstamp => .success versionstamp
  | none => .failure

/-! ## Claim theorems about the atomic write engine -/

/-- C1: the claim says a fully-passing `AtomicWrite` commits with
`ok: true` and the new versionstamp.  Evaluating the code at the failing
input (no checks — so every check passes — and one `Set` mutation):
the TypeScript `kvAtomicWrite` returns null unconditionally, so
`AtomicOperation.commit` reports `{ ok: false }`; yet the `atomic_write` the
repository quotes and documents itself as mirroring returns
`Ok(Some(CommitResult))` carrying the once-incremented counter's
versionstamp, with the mutation applied under that version. -/
theorem C1_commit_divergence :
    commitJs (some []) (some [([KvKeyPartJs.str "a"], "set", some (.v8 []))]) = .failure ∧
    atomic_write ⟨0, []⟩ ⟨[], [⟨[1], .Set (.V8 [])⟩], []⟩ =
      .ok (some ⟨version_to_versionstamp 1⟩, ⟨1, [([1], ⟨.V8 [], 1⟩)]⟩) := by
  refine ⟨rfl, by rfl⟩

/-- C4: an `AtomicWrite` containing a check whose expected versionstamp
differs from the key's current one (null standing for an absent key) commits
to nothing: `atomic_write` returns `Ok(None)` — a normal value, not an
error — with the table state unchanged; and the TypeScript commit path
reports every failure as the plain value `{ ok: false }`, never a thrown
exception. -/
theorem C4_check_failure_aborts (db : DbState) (w : AtomicWrite) (c : KvCheck)
    (hc : c ∈ w.checks) (hfail : currentVersionstamp db c.key ≠ c.versionstamp) :
    atomic_write db w = .ok (none, db) ∧
    ∀ checks mutations, commitJs checks mutations = .failure := by
  refine ⟨?_, fun _ _ => rfl⟩
  have hpass : checksPass db w.checks = false := by
    simp only [checksPass, List.all_eq_true, not_forall, eq_self_iff_true,
      Bool.not_eq_true] at *
    refine (Bool.eq_false_iff).2 ?_
    intro hall
    rw [List.all_eq_true] at hall
    have := hall c hc
    simp only [decide_eq_true_eq] at this
    exact hfail this
  simp [atomic_write, hpass]

/-- Witness for C4 at a concrete input: the empty table, a write whose one
check expects versionstamp bytes for the absent key `[1]`. -/
theorem C4_check_failure_aborts_witness :
    atomic_write ⟨0, []⟩ ⟨[⟨[1], some (version_to_versionstamp 1)⟩], [⟨[1], .Delete⟩], []⟩ =
      .ok (none, ⟨0, []⟩) := by
  exact (C4_check_failure_aborts ⟨0, []⟩
    ⟨[⟨[1], some (version_to_versionstamp 1)⟩], [⟨[1], .Delete⟩], []⟩
    ⟨[1], some (version_to_versionstamp 1)⟩ (by decide) (by decide)).1

/-- A write with no checks and a single `Sum` mutation. -/
def sumWrite (k : ByteKey) (n : Nat) : AtomicWrite :=
  ⟨[], [⟨k, .Sum (.U64 n)⟩], []⟩

/-- C6: Sum mutation semantics are unsigned 64-bit with wraparound:
a committed `Sum` on an absent key stores the operand; on an existing `U64`
value it stores the wrapping 64-bit sum; and concretely, from the empty
table, committing `Sum 18446744073709551615` and then `Sum 1` on the same
key leaves the stored value `0`. -/
theorem C6_sum_wraparound :
    (∀ (db : DbState) (k : ByteKey) (n : Nat), lookupRow db.kv k = none →
      atomic_write db (sumWrite k n) =
        .ok (some ⟨version_to_versionstamp (db.version + 1)⟩,
          ⟨db.version + 1, pointSet db.kv k (.U64 n) (db.version + 1)⟩)) ∧
    (∀ (db : DbState) (k : ByteKey) (m v₀ n : Nat),
      lookupRow db.kv k = some ⟨.U64 m, v₀⟩ →
      atomic_write db (sumWrite k n) =
        .ok (some ⟨version_to_versionstamp (db.version + 1)⟩,
          ⟨db.version + 1, pointSet db.kv k (.U64 (wrapping_add m n)) (db.version + 1)⟩)) ∧
    atomic_write ⟨0, []⟩ (sumWrite [1] 18446744073709551615) =
      .ok (some ⟨version_to_versionstamp 1⟩, ⟨1, [([1], ⟨.U64 18446744073709551615, 1⟩)]⟩) ∧
    atomic_write ⟨1, [([1], ⟨.U64 18446744073709551615, 1⟩)]⟩ (sumWrite [1] 1) =
      .ok (some ⟨version_to_versionstamp 2⟩, ⟨2, [([1], ⟨.U64 0, 2⟩)]⟩) := by
  refine ⟨?_, ?_, by rfl, by rfl⟩
  · intro db k n habs
    simp [atomic_write, sumWrite, checksPass, applyMutations, applyMutation,
      mutate_le64, habs, Except.bind]
    rfl
  · intro db k m v₀ n hrow
    simp [atomic_write, sumWrite, checksPass, applyMutations, applyMutation,
      mutate_le64, hrow, Except.bind]
    rfl

/-! ## The TypeScript `AtomicOperation` and `Kv` classes

`AtomicOperation` declares the private fields `#checks` and `#mutations`
without initializers, and its constructor assigns only `#db`; both lists are
therefore the value `undefined` on every fresh instance, and
`this.#checks.push(...)` / `this.#mutations.push(...)` throw a TypeError
(property access on undefined) before any argument is evaluated. -/

/-- JavaScript exceptions and protocol errors the embedded code can raise. -/
inductive JsError where
  | typeError
  | illegalState
  | referenceError
deriving DecidableEq, Repr

/-- A structured-serializable JavaScript value as `serializeValue` consumes
it: a `Uint8Array`, a `KvU64`, or any other value (carried by its opaque
`node:v8` serialization bytes). -/
inductive JsValue where
  | uint8array (b : List Nat)
  | kvU64 (n : Nat)
  | plain (v8bytes : List Nat)
deriving DecidableEq, Repr

/-- `serializeValue` from `src/internal/serializeValue.ts`: switch on the
value's constructor name — `Uint8Array` to a bytes `RawValue`, `KvU64` to a
u64 `RawValue`, anything else to its v8 serialization. -/
def serializeValue : JsValue → RawValue
  | .uint8array b => .bytes b
  | .kvU64 n => .u64 n
  | .plain b => .v8 b

/-- The observable state of an `AtomicOperation` instance: its `#checks`
and `#mutations` fields, each `none` while the field is still `undefined`. -/
structure AtomicOperation where
  checks : Option (List AtomicCheckJs)
  mutations : Option (List MutationTriple)
deriving DecidableEq, Repr

/-- `new AtomicOperation(db)`: the constructor assigns only `#db`, leaving
`#checks` and `#mutations` as `undefined`. -/
def AtomicOperation.new : AtomicOperation :=
  ⟨none, none⟩

/-- `AtomicOperation.check(...checks)`: `this.#checks.push(...checks)` — a
TypeError when `#checks` is undefined (even for an empty argument list, the
property access on undefined throws first). -/
def AtomicOperation.check (op : AtomicOperation) (cs : List AtomicCheckJs) :
    Except JsError AtomicOperation :=
  match op.checks with
  | none => .error .typeError
  | some l => .ok { op with checks := some (l ++ cs) }

/-- `this.#mutations.push([key, type, value])`: a TypeError when
`#mutations` is undefined, else the triple is appended. -/
def AtomicOperation.pushMutation (op : AtomicOperation) (m : MutationTriple) :
    Except JsError AtomicOperation :=
  match op.mutations with
  | none => .error .typeError
  | some l => .ok { op with mutations := some (l ++ [m]) }

/-- `AtomicOperation.set(key, value)`. -/
def AtomicOperation.set (op : AtomicOperation) (key : KvKeyJs) (value : JsValue) :
    Except JsError AtomicOperation :=
  op.pushMutation (key, "set", some (serializeValue value))

/-- `AtomicOperation.delete(key)`. -/
def AtomicOperation.delete (op : AtomicOperation) (key : KvKeyJs) :
    Except JsError AtomicOperation :=
  op.pushMutation (key, "delete", none)

/-- `AtomicOperation.sum(key, n)`: wraps `n` in a `KvU64` and queues a sum
mutation. -/
def AtomicOperation.sum (op : AtomicOperation) (key : KvKeyJs) (n : Nat) :
    Except JsError AtomicOperation :=
  op.pushMutation (key, "sum", some (serializeValue (.kvU64 n)))

/-- `AtomicOperation.min(key, n)`. -/
def AtomicOperation.min (op : AtomicOperation) (key : KvKeyJs) (n : Nat) :
    Except JsError AtomicOperation :=
  op.pushMutation (key, "min", some (serializeValue (.kvU64 n)))

/-- `AtomicOperation.max(key, n)`. -/
def AtomicOperation.max (op : AtomicOperation) (key : KvKeyJs) (n : Nat) :
    Except JsError AtomicOperation :=
  op.pushMutation (key, "max", some (serializeValue (.kvU64 n)))

/-- `KvMutation` from the TypeScript sources: the well-typed tagged union
(`delete` carries no value, `sum`/`min`/`max` carry a `KvU64`). -/
inductive KvMutationJs where
  | set (key : KvKeyJs) (value : JsValue)
  | delete (key : KvKeyJs)
  | sum (key : KvKeyJs) (n : Nat)
  | min (key : KvKeyJs) (n : Nat)
  | max (key : KvKeyJs) (n : Nat)
deriving DecidableEq, Repr

/-- The `[key, type, value]` triple `AtomicOperation.mutate` computes for a
well-typed mutation before pushing it.  For a well-typed `delete` mutation
there is no `value` property, so the `if (mutation.value)` TypeError guard
does not fire; the other variants always carry a value, so the
`!("value" in mutation)` guard does not fire either. -/
def mutationTriple : KvMutationJs → MutationTriple
  | .set k v => (k, "set", some (serializeValue v))
  | .delete k => (k, "delete", none)
  | .sum k n => (k, "sum", some (serializeValue (.kvU64 n)))
  | .min k n => (k, "min", some (serializeValue (.kvU64 n)))
  | .max k n => (k, "max", some (serializeValue (.kvU64 n)))

/-- `AtomicOperation.mutate(...mutations)`: validate each mutation in order,
then `this.#mutations.push(...)` — for an empty argument list the loop body
never runs and the method returns `this` untouched. -/
def AtomicOperation.mutate (op : AtomicOperation) :
    List KvMutationJs → Except JsError AtomicOperation
  | [] => .ok op
  | m :: rest =>
    match op.pushMutation (mutationTriple m) with
    | .error e => .error e
    | .ok op' => AtomicOperation.mutate op' rest

/-- `AtomicOperation.commit()` on an operation's own state. -/
def AtomicOperation.commit (op : AtomicOperation) : CommitOutcome :=
  commitJs op.checks op.mutations

/-- `Kv.atomic()`: `new AtomicOperation(this.#db)`. -/
def Kv.atomic : AtomicOperation :=
  AtomicOperation.new

/-- `Kv.set(key, value)`: `await this.atomic().set(key, value).commit()` —
the `.set` call throws before `commit` is ever reached. -/
def Kv.set (key : KvKeyJs) (value : JsValue) : Except JsError CommitOutcome :=
  match Kv.atomic.set key value with
  | .error e => .error e
  | .ok op => .ok op.commit

/-! ## Claim theorems about `AtomicOperation` (C9) -/

/-- C9 as amended: on a fresh `AtomicOperation` (whose constructor assigns
only the database handle, leaving `#checks` and `#mutations` undefined) the
first call to `check`, `set`, `delete`, `sum`, `min` or `max` throws a
TypeError, as does `mutate` with at least one mutation; consequently
`Kv.set` throws for every key and value. -/
theorem C9_fresh_operation_throws (cs : List AtomicCheckJs) (k : KvKeyJs)
    (v : JsValue) (n : Nat) (ms : List KvMutationJs) (hms : ms ≠ []) :
    AtomicOperation.new.check cs = .error .typeError ∧
    AtomicOperation.new.set k v = .error .typeError ∧
    AtomicOperation.new.delete k = .error .typeError ∧
    AtomicOperation.new.sum k n = .error .typeError ∧
    AtomicOperation.new.min k n = .error .typeError ∧
    AtomicOperation.new.max k n = .error .typeError ∧
    AtomicOperation.new.mutate ms = .error .typeError ∧
    Kv.set k v = .error .typeError := by
  obtain ⟨m, rest, rfl⟩ : ∃ m rest, ms = m :: rest := by
    cases ms with
    | nil => exact absurd rfl hms
    | cons m rest => exact ⟨m, rest, rfl⟩
  exact ⟨rfl, rfl, rfl, rfl, rfl, rfl, rfl, rfl⟩

/-- Witness for C9 at a concrete input: a one-element `mutate` call and a
concrete `Kv.set` call both throw. -/
theorem C9_fresh_operation_throws_witness :
    AtomicOperation.new.mutate [KvMutationJs.delete []] = .error .typeError ∧
    Kv.set [] (.kvU64 0) = .error .typeError :=
  ⟨(C9_fresh_operation_throws [] [] (.kvU64 0) 0 [KvMutationJs.delete []]
      (by decide)).2.2.2.2.2.2.1,
   (C9_fresh_operation_throws [] [] (.kvU64 0) 0 [KvMutationJs.delete []]
      (by decide)).2.2.2.2.2.2.2⟩

/-- Counterexample for C9 as frozen: `mutate` called with an empty mutation
list on a fresh `AtomicOperation` returns the operation unchanged instead of
throwing a TypeError — the loop body, whose push would throw, never runs. -/
theorem C9_mutate_empty_cex :
    AtomicOperation.new.mutate [] = .ok AtomicOperation.new :=
  rfl

/-! ## `Kv.get` and `Kv.getMany` (C10) -/

/-- A row of the point-read query `SELECT value, versionstamp FROM kv WHERE
key = ?`: the `value` column (null or JSON text) and the versionstamp. -/
structure RowJs where
  value : Option String
  versionstamp : String
deriving DecidableEq, Repr

/-- The `KvEntryMaybe` object `Kv.get` builds.  The parsed JSON value is
represented by the JSON text it was parsed from (`JSON.parse` is an external
collaborator whose output the claims never scrutinize); a null or falsy
(empty-string) `value` column becomes a null value. -/
structure KvEntryMaybeJs where
  key : KvKeyJs
  value : Option String
  versionstamp : Option String
deriving DecidableEq, Repr

/-- `Kv.get(key)`: `const { value, versionstamp } = await this.#db.get(...)`.
The sqlite driver resolves with `undefined` when no row matches, and
destructuring `undefined` throws a TypeError; a present row yields
`{ key, value: value ? JSON.parse(value) : null, versionstamp }`. -/
def Kv.get (table : KvKeyJs → Option RowJs) (key : KvKeyJs) :
    Except JsError KvEntryMaybeJs :=
  match table key with
  | none => .error .typeError
  | some row =>
    .ok ⟨key,
      (match row.value with
       | some s => if s = "" then none else some s
       | none => none),
      some row.versionstamp⟩

/-- `Kv.getMany(keys)`: `Promise.all(keys.map((key) => this.get(key, ...)))`
— it rejects as soon as any single `get` rejects. -/
def Kv.getMany (table : KvKeyJs → Option RowJs) :
    List KvKeyJs → Except JsError (List KvEntryMaybeJs)
  | [] => .ok []
  | k :: ks =>
    match Kv.get table k with
    | .error e => .error e
    | .ok e =>
      match Kv.getMany table ks with
      | .error e' => .error e'
      | .ok es => .ok (e :: es)

/-- C10: for every key with no row in the underlying table, `Kv.get` throws
a TypeError (it destructures the undefined result of the point query)
instead of returning a null-value/null-versionstamp entry; consequently
`Kv.getMany` rejects whenever any one of its requested keys is absent. -/
theorem C10_get_absent_throws (table : KvKeyJs → Option RowJs) (key : KvKeyJs)
    (keys : List KvKeyJs) (habs : table key = none) (hmem : key ∈ keys) :
    Kv.get table key = .error .typeError ∧
    Kv.getMany table keys = .error .typeError := by
  refine ⟨by simp [Kv.get, habs], ?_⟩
  induction keys with
  | nil => cases hmem
  | cons k ks ih =>
    rw [List.mem_cons] at hmem
    cases hk : table k with
    | none =>
      simp [Kv.getMany, Kv.get, hk]
    | some row =>
      have hne : key ≠ k := by
        intro h
        rw [h, hk] at habs
        cases habs
      have hmem' : key ∈ ks := hmem.resolve_left hne
      have htail := ih hmem'
      simp [Kv.getMany, Kv.get, hk, htail]

/-- Witness for C10 at a concrete input: the empty table, the empty key,
requested alone. -/
theorem C10_get_absent_throws_witness :
    Kv.get (fun _ => none) [] = .error .typeError ∧
    Kv.getMany (fun _ => none) [[]] = .error .typeError :=
  C10_get_absent_throws (fun _ => none) [] [[]] rfl (by simp)

/-! ## The `KvListIterator` state machine

`KvListIterator` keeps `#entries` (the reversed batch buffer, popped from
the end), `#cursorGen` (a nullable closure), `#done`, `#lastBatch`,
`#limit`, `#count`, `#reverse`, `#batchSize`, `#consistency` and the frozen
`#selector`.  `pullBatch` is an injected function; a call of `next()` that
fills the buffer invokes it exactly once, so each `next` step below takes
the batch such a call would return as a parameter and additionally reports
whether `pullBatch` was invoked. -/

/-- The consistency level of a read (`"strong" | "eventual"`). -/
inductive Consistency where
  | strong
  | eventual
deriving DecidableEq, Repr

/-- A `KvEntry` as `pullBatch` yields it: key, value (kept as its serialized
representation) and versionstamp. -/
structure KvEntryJs where
  key : KvKeyJs
  value : RawValue
  versionstamp : String
deriving DecidableEq, Repr

/-- A `KvListSelector` shape as passed to the constructor: the `prefix`,
`start` and `end` properties (absent or undefined both modelled as `none`).
The field names carry a `Key` suffix here because `prefix` and `end` cannot
be used as Lean field names. -/
structure KvListSelectorJs where
  prefixKey : Option KvKeyJs
  startKey : Option KvKeyJs
  endKey : Option KvKeyJs
deriving DecidableEq, Repr

/-- The `#cursorGen` closure: null, or the constructor-supplied cursor
(`() => cursor`), or `() => ""` after exhaustion, or the entry-derived
closure `() => encodeCursor([...selector parts...], entry.key)` installed
after a successful yield. -/
inductive CursorGen where
  | fromCtor (c : String)
  | empty
  | fromEntry (key : KvKeyJs)
deriving DecidableEq, Repr

/-- The mutable state of a `KvListIterator`. -/
structure KvListIterState where
  selector : KvListSelectorJs
  entries : Option (List KvEntryJs)
  cursorGen : Option CursorGen
  done : Bool
  lastBatch : Bool
  limit : Option Nat
  count : Nat
  reverse : Bool
  batchSize : Nat
  consistency : Consistency
deriving DecidableEq, Repr

/-- The constructor's options object. -/
structure KvListIterOptions where
  limit : Option Nat
  selector : KvListSelectorJs
  cursor : Option String
  reverse : Bool
  batchSize : Nat
  consistency : Consistency
deriving DecidableEq, Repr

/-- The field initialization at the end of the constructor.  Note
`this.#cursorGen = cursor ? () => cursor : null`: the empty string is falsy
in JavaScript, so an empty-string resume cursor leaves the generator null
exactly like an absent one. -/
def initState (o : KvListIterOptions) (sel : KvListSelectorJs) : KvListIterState :=
  { selector := sel
    entries := none
    cursorGen :=
      match o.cursor with
      | some c => if c = "" then none else some (.fromCtor c)
      | none => none
    done := false
    lastBatch := false
    limit := o.limit
    count := 0
    reverse := o.reverse
    batchSize := o.batchSize
    consistency := o.consistency }

/-- The `KvListIterator` constructor: validate the selector (a prefix
together with both start and end, or neither a prefix nor a start/end pair,
is a TypeError raised at construction), normalize it, and initialize the
fields. -/
def KvListIterator.construct (o : KvListIterOptions) :
    Except JsError KvListIterState :=
  match o.selector.prefixKey with
  | some p =>
    if o.selector.startKey.isSome && o.selector.endKey.isSome then
      .error .typeError
    else
      match o.selector.startKey, o.selector.endKey with
      | some s, _ => .ok (initState o ⟨some p, some s, none⟩)
      | none, some e => .ok (initState o ⟨some p, none, some e⟩)
      | none, none => .ok (initState o ⟨some p, none, none⟩)
  | none =>
    match o.selector.startKey, o.selector.endKey with
    | some s, some e => .ok (initState o ⟨none, some s, some e⟩)
    | _, _ => .error .typeError

/-- The `cursor` getter: a null `#cursorGen` throws
`Error("Cannot get cursor before first iteration")` (the IllegalStateError
of the spec); otherwise the closure is invoked.  The entry-derived closure
calls `encodeCursor`, an identifier bound nowhere in the module, so invoking
it throws a ReferenceError. -/
def KvListIterator.cursor (s : KvListIterState) : Except JsError String :=
  match s.cursorGen with
  | none => .error .illegalState
  | some (.fromCtor c) => .ok c
  | some .empty => .ok ""
  | some (.fromEntry _) => .error .referenceError

/-- The first guard of `next()`: already fused, or the limit is reached
(`this.#limit !== undefined && this.#count >= this.#limit`). -/
def doneGuard (s : KvListIterState) : Bool :=
  s.done ||
    (match s.limit with
     | some l => l ≤ s.count
     | none => false)

/-- The buffer-fill condition of `next()`:
`!this.#entries?.length && !this.#lastBatch`. -/
def fillNeeded (s : KvListIterState) : Bool :=
  (match s.entries with
   | none => true
   | some l => l.isEmpty) && !s.lastBatch

/-- The buffer-fill step of `next()`: `pull` is the batch the injected
`pullBatch` returned.  The batch is stored reversed (to be popped from the
end), and a batch shorter than `batchSize` marks `#lastBatch` (the flag was
false on entry to this branch, hence the disjunction is faithful). -/
def fillState (pull : List KvEntryJs) (s : KvListIterState) : KvListIterState :=
  { s with entries := some pull.reverse
           lastBatch := s.lastBatch || decide (pull.length < s.batchSize) }

/-- The pop stage of `next()` on the (possibly refilled) state `s₁`:
`const entry = this.#entries?.pop()`.  An empty pop fuses the iterator
(`#done = true`) and installs the `() => ""` cursor closure; a successful
pop installs the entry-derived cursor closure and counts the yield.
`pulled` records whether this call invoked `pullBatch`. -/
def popStep (s₁ : KvListIterState) (pulled : Bool) :
    Option KvEntryJs × KvListIterState × Bool :=
  match s₁.entries with
  | some (a :: rest) =>
    let entry := (a :: rest).getLast (List.cons_ne_nil a rest)
    (some entry,
      { s₁ with entries := some (a :: rest).dropLast
                cursorGen := some (.fromEntry entry.key)
                count := s₁.count + 1 },
      pulled)
  | _ =>
    (none, { s₁ with done := true, cursorGen := some .empty }, pulled)

/-- One call of `KvListIterator.next()`.  The result is the yielded entry
(`none` for a done result), the successor state, and whether `pullBatch`
was invoked. -/
def KvListIterator.next (pull : List KvEntryJs) (s : KvListIterState) :
    Option KvEntryJs × KvListIterState × Bool :=
  if doneGuard s then (none, s, false)
  else popStep (if fillNeeded s then fillState pull s else s) (fillNeeded s)

/-- Repeated `next()` calls: the results in order, the final state, and
whether any call invoked `pullBatch`. -/
def runNexts (s : KvListIterState) :
    List (List KvEntryJs) → List (Option KvEntryJs) × KvListIterState × Bool
  | [] => ([], s, false)
  | pull :: rest =>
    let step := KvListIterator.next pull s
    let later := runNexts step.2.1 rest
    (step.1 :: later.1, later.2.1, step.2.2 || later.2.2)

/-- On a state whose first guard fires, `next` is a no-op done result that
performs no scan. -/
theorem next_of_doneGuard (pull : List KvEntryJs) (s : KvListIterState)
    (h : doneGuard s = true) :
    KvListIterator.next pull s = (none, s, false) := by
  simp [KvListIterator.next, h]

/-- A done result of the pop stage carries a fused (`done = true`) state. -/
theorem popStep_done (s₁ s' : KvListIterState) (b pulled : Bool)
    (h : popStep s₁ b = (none, s', pulled)) : s'.done = true := by
  unfold popStep at h
  rcases he : s₁.entries with _ | ⟨_ | ⟨a, rest⟩⟩ <;> rw [he] at h <;>
    simp only [Prod.mk.injEq] at h
  · rw [← h.2.1]
  · rw [← h.2.1]
  · exact absurd h.1 (by simp)

/-- A yielded entry of the pop stage installs the entry-derived cursor
closure in the successor state. -/
theorem popStep_yield (s₁ s' : KvListIterState) (b pulled : Bool)
    (e : KvEntryJs) (h : popStep s₁ b = (some e, s', pulled)) :
    s'.cursorGen = some (.fromEntry e.key) := by
  unfold popStep at h
  rcases he : s₁.entries with _ | ⟨_ | ⟨a, rest⟩⟩ <;> rw [he] at h <;>
    simp only [Prod.mk.injEq] at h
  · exact absurd h.1 (by simp)
  · exact absurd h.1 (by simp)
  · obtain ⟨h1, h2, h3⟩ := h
    rw [← h2]
    simp [Option.some.inj h1]

/-- Any `next` call that returns a done result leaves a state whose first
guard fires forever after. -/
theorem doneGuard_after_done (pull : List KvEntryJs) (s s' : KvListIterState)
    (pulled : Bool) (h : KvListIterator.next pull s = (none, s', pulled)) :
    doneGuard s' = true := by
  rw [KvListIterator.next] at h
  by_cases hg : doneGuard s = true
  · rw [if_pos hg] at h
    simp only [Prod.mk.injEq] at h
    rw [← h.2.1]
    exact hg
  · rw [if_neg hg] at h
    have hd := popStep_done _ _ _ _ h
    simp [doneGuard, hd]

/-- C7: the iterator is fused.  Once a `next()` call has returned a done
result — whether because a short batch was exhausted, a fresh batch was
empty, or the yielded count reached `limit` — every later `next()` call also
returns a done result, leaves the state untouched, and never invokes
`pullBatch` again. -/
theorem C7_iterator_fused (pull : List KvEntryJs) (s s' : KvListIterState)
    (pulled : Bool) (h : KvListIterator.next pull s = (none, s', pulled))
    (pulls : List (List KvEntryJs)) :
    runNexts s' pulls = (List.replicate pulls.length none, s', false) := by
  have hg : doneGuard s' = true := doneGuard_after_done pull s s' pulled h
  induction pulls with
  | nil => simp [runNexts]
  | cons p ps ih =>
    simp [runNexts, next_of_doneGuard p s' hg, ih, List.replicate_succ]

/-- A concrete iterator state over the prefix `[]` selector whose limit `0`
is already reached. -/
def limitZeroState : KvListIterState :=
  { selector := ⟨some [], none, none⟩
    entries := none
    cursorGen := none
    done := false
    lastBatch := false
    limit := some 0
    count := 0
    reverse := false
    batchSize := 2
    consistency := .strong }

/-- Witness for C7 at a concrete input: after the done result of an
iterator whose limit is reached, two further `next()` calls (with non-empty
batches on offer) yield two done results, no state change, and no scan. -/
theorem C7_iterator_fused_witness :
    runNexts limitZeroState [[⟨[], .u64 0, "v"⟩], [⟨[], .u64 0, "v"⟩]] =
      ([none, none], limitZeroState, false) :=
  C7_iterator_fused [] limitZeroState limitZeroState false (by rfl)
    [[⟨[], .u64 0, "v"⟩], [⟨[], .u64 0, "v"⟩]]

/-- Every successful construction yields the `initState` of some normalized
selector. -/
theorem construct_ok (o : KvListIterOptions) (s₀ : KvListIterState)
    (h : KvListIterator.construct o = .ok s₀) :
    ∃ sel, s₀ = initState o sel := by
  unfold KvListIterator.construct at h
  split at h
  · split at h
    · simp at h
    · split at h <;> exact ⟨_, (Except.ok.inj h).symm⟩
  · split at h
    · exact ⟨_, (Except.ok.inj h).symm⟩
    · simp at h

/-- C8 as amended: the `cursor` accessor throws the illegal-state error
exactly when the internal `#cursorGen` closure is null.  On a freshly
constructed iterator that holds iff no resume cursor (or only the falsy
empty-string cursor) was supplied at construction: a non-empty resume cursor
makes the accessor return that cursor before any iteration.  And after any
`next()` call that yields an entry the generator is installed, so the
accessor no longer throws the illegal-state error. -/
theorem C8_cursor_access (o : KvListIterOptions) (s₀ : KvListIterState)
    (h : KvListIterator.construct o = .ok s₀) :
    (KvListIterator.cursor s₀ = .error .illegalState ↔
      (o.cursor = none ∨ o.cursor = some "")) ∧
    (∀ c, o.cursor = some c → c ≠ "" → KvListIterator.cursor s₀ = .ok c) ∧
    (∀ (pull : List KvEntryJs) (s s' : KvListIterState) (e : KvEntryJs)
      (pulled : Bool), KvListIterator.next pull s = (some e, s', pulled) →
      KvListIterator.cursor s' ≠ .error .illegalState) := by
  obtain ⟨sel, rfl⟩ := construct_ok o s₀ h
  have hgen : (initState o sel).cursorGen =
      (match o.cursor with
       | some c => if c = "" then none else some (.fromCtor c)
       | none => none) := rfl
  refine ⟨?_, ?_, ?_⟩
  · rw [KvListIterator.cursor, hgen]
    rcases hc : o.cursor with _ | c
    · simp
    · by_cases hce : c = ""
      · simp [hce]
      · simp [hce]
  · intro c hc hne
    rw [KvListIterator.cursor, hgen, hc]
    simp [hne]
  · intro pull s s' e pulled h'
    by_cases hg : doneGuard s = true
    · rw [next_of_doneGuard pull s hg] at h'
      exact absurd (congrArg Prod.fst h') (by simp)
    · rw [KvListIterator.next, if_neg hg] at h'
      have hgen' := popStep_yield _ _ _ _ _ h'
      rw [KvListIterator.cursor, hgen']
      simp

/-- Options carrying a concrete resume cursor `"abc"` over the prefix `[]`
selector. -/
def cursorOptsExample : KvListIterOptions :=
  { limit := none
    selector := ⟨some [], none, none⟩
    cursor := some "abc"
    reverse := false
    batchSize := 2
    consistency := .strong }

/-- Witness for C8 at a concrete input: constructing with the resume cursor
`"abc"` and reading the accessor before any `next()` call returns `"abc"`. -/
theorem C8_cursor_access_witness :
    KvListIterator.cursor (initState cursorOptsExample ⟨some [], none, none⟩) =
      .ok "abc" :=
  (C8_cursor_access cursorOptsExample
    (initState cursorOptsExample ⟨some [], none, none⟩) (by rfl)).2.1
    "abc" rfl (by decide)

/-- Counterexample for C8 as frozen: the claim says any access to the
cursor getter before the first successful yield throws, regardless of
construction.  But an iterator constructed with the resume cursor `"abc"`
answers the accessor with `"abc"` — no illegal-state error — before any
`next()` call. -/
theorem C8_cursor_before_yield_cex :
    KvListIterator.construct cursorOptsExample =
      .ok (initState cursorOptsExample ⟨some [], none, none⟩) ∧
    KvListIterator.cursor (initState cursorOptsExample ⟨some [], none, none⟩) =
      .ok "abc" ∧
    KvListIterator.cursor (initState cursorOptsExample ⟨some [], none, none⟩) ≠
      .error .illegalState := by
  refine ⟨rfl, rfl, fun hcon => Except.noConfusion hcon⟩

end DenoKv
